import Mathlib

/-!
Verification of the Variant-Interpretation-Dashboard API toolkit
(`API_Toolkit.py` and the frequency computation in `test_dashboard.py`).

Strings from the program that are inspected character by character
(variant identifiers, HGVS strings) are modelled as `List Char`; opaque
texts (table cells, titles, URLs) are modelled as `String`.  Each adapter
is a pure function of the transport outcomes of the HTTP requests it
issues; a transport outcome is either a raised network exception or a
response carrying a status code and an already-decoded body.  Python
exceptions escaping a function are modelled with `Except PyError`; where a
claim speaks about which requests are issued, the function also returns
the number of requests it attempted.
-/

/-- Python exceptions that the adapters can raise or propagate. -/
inductive PyError where
  | valueError
  | requestException
  | httpError
  | indexError
  | attributeError
  | typeError
  deriving DecidableEq, Repr

/-- Outcome of one HTTP request: a raised network exception, or a response
with a status code and a decoded body of type alpha. -/
inductive HttpOutcome (α : Type) where
  | exn : HttpOutcome α
  | resp (status : Nat) (body : α) : HttpOutcome α
  deriving DecidableEq, Repr

/-- Embedding of the Python single-character `str.split`: splitting the
empty string yields one empty field, and each separator character opens a
new field. -/
def splitOnChar (sep : Char) : List Char → List (List Char)
  | [] => [[]]
  | c :: cs =>
    if c = sep then [] :: splitOnChar sep cs
    else
      match splitOnChar sep cs with
      | [] => [[c]]
      | f :: rest => (c :: f) :: rest

lemma splitOnChar_ne_nil (sep : Char) (l : List Char) : splitOnChar sep l ≠ [] := by
  cases l with
  | nil => simp [splitOnChar]
  | cons c cs =>
    by_cases h : c = sep
    · simp [splitOnChar, h]
    · simp only [splitOnChar, if_neg h]
      cases splitOnChar sep cs <;> simp

lemma splitOnChar_no_sep (sep : Char) (l : List Char) (h : sep ∉ l) :
    splitOnChar sep l = [l] := by
  induction l with
  | nil => rfl
  | cons c cs ih =>
    have hc : ¬ c = sep := fun he => h (he ▸ List.mem_cons_self c cs)
    have hcs : sep ∉ cs := fun hm => h (List.mem_cons_of_mem c hm)
    simp only [splitOnChar, if_neg hc, ih hcs]

lemma splitOnChar_append (sep : Char) (l r : List Char) (h : sep ∉ l) :
    splitOnChar sep (l ++ sep :: r) = l :: splitOnChar sep r := by
  induction l with
  | nil => simp [splitOnChar]
  | cons c cs ih =>
    have hc : ¬ c = sep := fun he => h (he ▸ List.mem_cons_self c cs)
    have hcs : sep ∉ cs := fun hm => h (List.mem_cons_of_mem c hm)
    simp only [List.cons_append, splitOnChar, if_neg hc, List.append_eq, ih hcs]

/-- Embedding of `hgvs_variant.split(":")[-1]` followed by
`join(c for c in s if not c.isdigit() and c not in [".", "c"])` and
`replace(">", "-")`, as written in `get_genomic_coordinates`
(`API_Toolkit.py` lines 611 to 617). -/
def variantChange_coords (hgvs : List Char) : List Char :=
  let tail := (splitOnChar ':' hgvs).getLastD []
  let stripped := tail.filter (fun c => !c.isDigit && !(c == '.') && !(c == 'c'))
  stripped.map (fun c => if c = '>' then '-' else c)

/-- The same three-line transformation as written a second time inside
`get_gnomad_data` (`API_Toolkit.py` lines 359 to 361). -/
def variantChange_gnomad (hgvs : List Char) : List Char :=
  let tail := (splitOnChar ':' hgvs).getLastD []
  let stripped := tail.filter (fun c => !c.isDigit && !(c == '.') && !(c == 'c'))
  stripped.map (fun c => if c = '>' then '-' else c)

/-- Embedding of the input-parsing stage of `get_revel_score`
(`API_Toolkit.py` lines 241 to 257): split the positional identifier on
the dash; exactly four components become chromosome, position, reference
and alternate in that order, anything else raises `ValueError`. -/
def revelParse (input : List Char) :
    Except PyError (List Char × List Char × List Char × List Char) :=
  match splitOnChar '-' input with
  | [c, p, r, a] => Except.ok (c, p, r, a)
  | _ => Except.error PyError.valueError

lemma revelParse_error_of_length (input : List Char)
    (h : (splitOnChar '-' input).length ≠ 4) :
    revelParse input = Except.error PyError.valueError := by
  unfold revelParse
  rcases hs : splitOnChar '-' input with _ | ⟨a, _ | ⟨b, _ | ⟨c, _ | ⟨d, _ | ⟨e, t⟩⟩⟩⟩⟩ <;>
    simp_all [hs]

/-!
Adapter embeddings.  Each adapter takes the transport outcome of each
request it can issue, in program order.
-/

/-- Embedding of `get_splice_ai_data` (`API_Toolkit.py` lines 36 to 54):
the request is wrapped in a handler for `requests.exceptions.RequestException`,
a 200 response returns the decoded body, any other status returns `None`,
and a caught network exception returns `None`. -/
def get_splice_ai_data {α : Type} (t : HttpOutcome α) : Option α :=
  match t with
  | HttpOutcome.exn => none
  | HttpOutcome.resp st body => if st = 200 then some body else none

/-- An anchor element of the PubMed result page that carries the
`docsum-title` class: its text and its `href` attribute. -/
structure Anchor where
  title : String
  href : String
  deriving DecidableEq, Repr

/-- Embedding of the link construction of `search_pubmed`
(`API_Toolkit.py` lines 163 to 165). -/
def pubmedLink (a : Anchor) : String :=
  "<a href=\"" ++ ("https://pubmed.ncbi.nlm.nih.gov" ++ a.href) ++
    "\" target=\"_blank\">" ++ a.title ++ "</a>"

/-- Embedding of `search_pubmed` (`API_Toolkit.py` lines 147 to 176): the
whole body sits inside a handler catching every `Exception`, so the
function never raises; a 200 response with matching anchors returns the
constructed links, a 200 response with zero matching anchors returns the
one-element sentinel list, any other status and any exception return
`None`. -/
def search_pubmed (t : HttpOutcome (List Anchor)) : Option (List String) :=
  match t with
  | HttpOutcome.exn => none
  | HttpOutcome.resp st anchors =>
    if st = 200 then
      match anchors with
      | [] => some ["No search results found."]
      | _ => some (anchors.map pubmedLink)
    else none

/-- Embedding of the URL constructed by `get_varsome_data_url`
(`API_Toolkit.py` lines 196 to 199). -/
def varsomeUrl (variant assembly mode : String) : String :=
  "https://varsome.com/variant/" ++ (assembly ++ "/" ++ variant) ++
    "?annotation-mode=" ++ mode

/-- Embedding of `get_varsome_data_url` (`API_Toolkit.py` lines 194 to
216): the request is wrapped in a handler for `requests.RequestException`;
a 200 response returns the constructed URL, any other status and any
caught network exception return `None`. -/
def get_varsome_data_url (variant assembly mode : String)
    (t : HttpOutcome Unit) : Option String :=
  match t with
  | HttpOutcome.exn => none
  | HttpOutcome.resp st _ => if st = 200 then some (varsomeUrl variant assembly mode) else none

/-- Decoded summary XML of the second ClinVar request: the optional
`description` and `review_status` elements, each carrying its text. -/
structure SummaryXml where
  description : Option String
  review_status : Option String
  deriving DecidableEq, Repr

/-- Embedding of the ClinVar record link built at `API_Toolkit.py`
line 117. -/
def clinvarLink (vid : String) : String :=
  "https://www.ncbi.nlm.nih.gov/clinvar/" ++ vid

/-- Embedding of `get_clinvar_classification` (`API_Toolkit.py` lines 87
to 119).  Neither request is wrapped in an exception handler, so a network
exception propagates (`Except.error`).  The search body is the optional
`Id` element text; a missing `Id` returns `None` after one request.  A
missing `description` in the summary returns `None`; a present
`description` with a missing `review_status` element raises
`AttributeError` (the code reads `.text` of `None`); otherwise the
classification, review status and record link are returned.  The second
component counts the requests attempted. -/
def get_clinvar_classification (search : HttpOutcome (Option String))
    (summary : HttpOutcome SummaryXml) :
    Except PyError (Option (String × String × String)) × Nat :=
  match search with
  | HttpOutcome.exn => (Except.error PyError.requestException, 1)
  | HttpOutcome.resp _ idElem =>
    match idElem with
    | none => (Except.ok none, 1)
    | some vid =>
      match summary with
      | HttpOutcome.exn => (Except.error PyError.requestException, 2)
      | HttpOutcome.resp _ sx =>
        match sx.description with
        | none => (Except.ok none, 2)
        | some desc =>
          match sx.review_status with
          | none => (Except.error PyError.attributeError, 2)
          | some rv => (Except.ok (some (desc, rv, clinvarLink vid)), 2)

/-- The HTML table of the pathogenicity-score response: the texts of the
`th` header cells carrying class `w3-blue`, and the cell texts of each
`tr` row. -/
structure RevelTable where
  headers : List String
  rows : List (List String)
  deriving DecidableEq, Repr

/-- Embedding of `get_revel_score` (`API_Toolkit.py` lines 241 to 314).
The input is parsed first (`revelParse`); a `ValueError` propagates with
zero requests attempted.  The first POST is issued outside any handler
and its response is discarded without a status check; a network exception
there propagates.  For the second POST, a non-200 status returns `None`;
on a 200 response, a missing table raises `AttributeError`
(`table.find_all` on `None`), otherwise each row is zipped with the
headers (`dict(zip(headers, data))`), the first row is dropped
(`rows[1:]`), and the first remaining row is returned, or `None` if none
remain. -/
def get_revel_score (input : List Char) (post1 : HttpOutcome Unit)
    (post2 : HttpOutcome (Option RevelTable)) :
    Except PyError (Option (List (String × String))) × Nat :=
  match revelParse input with
  | Except.error e => (Except.error e, 0)
  | Except.ok _ =>
    match post1 with
    | HttpOutcome.exn => (Except.error PyError.requestException, 1)
    | HttpOutcome.resp _ _ =>
      match post2 with
      | HttpOutcome.exn => (Except.error PyError.requestException, 2)
      | HttpOutcome.resp st body =>
        if st = 200 then
          match body with
          | none => (Except.error PyError.attributeError, 2)
          | some tbl =>
            (Except.ok (((tbl.rows.map (fun cells => tbl.headers.zip cells)).drop 1).head?), 2)
        else (Except.ok none, 2)

/-- One entry of the `transcript_consequences` list of the VEP response;
scalar JSON values are abstracted as `String`. -/
structure TranscriptConsequence where
  sift_prediction : Option String
  polyphen_prediction : Option String
  gene_symbol : Option String
  protein_start : Option String
  protein_end : Option String
  amino_acids : Option String
  deriving DecidableEq, Repr

/-- One item of the decoded VEP JSON list.  `transcript_consequences` is
`none` when the key is absent (the membership test of the guard fails). -/
structure VepItem where
  transcript_consequences : Option (List TranscriptConsequence)
  assembly_name : Option String
  seq_region_name : Option String
  start : Option String
  endField : Option String
  most_severe_consequence : Option String
  deriving DecidableEq, Repr

/-!
The shared non-OK handling of the VEP-based functions is
`if not r.ok: r.raise_for_status(); sys.exit()`.  In the requests
library `r.ok` is `False` exactly for the statuses 400 to 599, and
`raise_for_status` raises `HTTPError` for exactly those statuses, so
inside the branch it always raises and the `sys.exit()` call behind it
is unreachable dead code; a status of 600 or more counts as OK and the
function proceeds to parse the body.
-/

/-- VEP endpoint URL as built in `get_ensembl_functional_data`
(`API_Toolkit.py` lines 447 to 448). -/
def vepUrl_functional (hgvs : List Char) : String :=
  "https://rest.ensembl.org" ++ ("/vep/human/hgvs/" ++ hgvs.asString ++ "?")

/-- VEP endpoint URL as built in `get_ensembl_rest_data`
(`API_Toolkit.py` lines 503 to 504). -/
def vepUrl_rest (hgvs : List Char) : String :=
  "https://rest.ensembl.org" ++ ("/vep/human/hgvs/" ++ hgvs.asString ++ "?")

/-- VEP endpoint URL as built in `get_genomic_coordinates`
(`API_Toolkit.py` lines 591 to 592). -/
def vepUrl_coords (hgvs : List Char) : String :=
  "https://rest.ensembl.org" ++ ("/vep/human/hgvs/" ++ hgvs.asString ++ "?")

/-- Embedding of `get_ensembl_functional_data` (`API_Toolkit.py` lines
446 to 480): on a not-OK response (status 400 to 599) `raise_for_status`
raises `HTTPError` (the `sys.exit` call behind it is unreachable);
otherwise — including statuses of 600 and above, which count as OK — if
the decoded list is non-empty and its first item has the
`transcript_consequences` key, the first consequence is read (an empty
consequence list raises `IndexError`) and the SIFT and PolyPhen fields
are projected with default `N/A`; if the guard fails, `None` is
returned. -/
def get_ensembl_functional_data (t : HttpOutcome (List VepItem)) :
    Except PyError (Option (List (String × String))) :=
  match t with
  | HttpOutcome.exn => Except.error PyError.requestException
  | HttpOutcome.resp st decoded =>
    if 400 ≤ st ∧ st < 600 then Except.error PyError.httpError
    else
      match decoded with
      | d :: _ =>
        match d.transcript_consequences with
        | some (tc :: _) =>
          Except.ok (some
            [("SIFT Prediction", tc.sift_prediction.getD "N/A"),
             ("PolyPhen Prediction", tc.polyphen_prediction.getD "N/A")])
        | some [] => Except.error PyError.indexError
        | none => Except.ok none
      | [] => Except.ok none

/-- Embedding of `get_ensembl_rest_data` (`API_Toolkit.py` lines 502 to
546): identical request, not-OK and guard logic, projecting the gene
symbol, assembly, coordinates, consequence severity and protein-level
fields. -/
def get_ensembl_rest_data (t : HttpOutcome (List VepItem)) :
    Except PyError (Option (List (String × String))) :=
  match t with
  | HttpOutcome.exn => Except.error PyError.requestException
  | HttpOutcome.resp st decoded =>
    if 400 ≤ st ∧ st < 600 then Except.error PyError.httpError
    else
      match decoded with
      | d :: _ =>
        match d.transcript_consequences with
        | some (tc :: _) =>
          Except.ok (some
            [("Gene Symbol", tc.gene_symbol.getD "N/A"),
             ("Assembly Name", d.assembly_name.getD "N/A"),
             ("Chromosome", d.seq_region_name.getD "N/A"),
             ("Genomic Start", d.start.getD "N/A"),
             ("Genomic End", d.endField.getD "N/A"),
             ("Most Severe Consequence", d.most_severe_consequence.getD "N/A"),
             ("Protein Start", tc.protein_start.getD "N/A"),
             ("Protein End", tc.protein_end.getD "N/A"),
             ("Amino Acids", tc.amino_acids.getD "N/A")])
        | some [] => Except.error PyError.indexError
        | none => Except.ok none
      | [] => Except.ok none

/-- Embedding of `get_genomic_coordinates` (`API_Toolkit.py` lines 590 to
633): identical request, not-OK and guard logic, projecting the
chromosome, start and the variant-change string derived from the HGVS
input. -/
def get_genomic_coordinates (hgvs : List Char) (t : HttpOutcome (List VepItem)) :
    Except PyError (Option (List (String × String))) :=
  match t with
  | HttpOutcome.exn => Except.error PyError.requestException
  | HttpOutcome.resp st decoded =>
    if 400 ≤ st ∧ st < 600 then Except.error PyError.httpError
    else
      match decoded with
      | d :: _ =>
        match d.transcript_consequences with
        | some (_tc :: _) =>
          Except.ok (some
            [("Chromosome", d.seq_region_name.getD "N/A"),
             ("Start", d.start.getD "N/A"),
             ("VariantChange", (variantChange_coords hgvs).asString)])
        | some [] => Except.error PyError.indexError
        | none => Except.ok none
      | [] => Except.ok none

/-- The request, not-OK and guard logic common to the three VEP-based
adapters, parameterised by the field projection applied to the first
decoded item and its first transcript consequence. -/
def vepTemplate (proj : VepItem → TranscriptConsequence → List (String × String))
    (t : HttpOutcome (List VepItem)) :
    Except PyError (Option (List (String × String))) :=
  match t with
  | HttpOutcome.exn => Except.error PyError.requestException
  | HttpOutcome.resp st decoded =>
    if 400 ≤ st ∧ st < 600 then Except.error PyError.httpError
    else
      match decoded with
      | d :: _ =>
        match d.transcript_consequences with
        | some (tc :: _) => Except.ok (some (proj d tc))
        | some [] => Except.error PyError.indexError
        | none => Except.ok none
      | [] => Except.ok none

/-- The field projection of `get_ensembl_functional_data`. -/
def projFunctional (_d : VepItem) (tc : TranscriptConsequence) :
    List (String × String) :=
  [("SIFT Prediction", tc.sift_prediction.getD "N/A"),
   ("PolyPhen Prediction", tc.polyphen_prediction.getD "N/A")]

/-- The field projection of `get_ensembl_rest_data`. -/
def projRest (d : VepItem) (tc : TranscriptConsequence) :
    List (String × String) :=
  [("Gene Symbol", tc.gene_symbol.getD "N/A"),
   ("Assembly Name", d.assembly_name.getD "N/A"),
   ("Chromosome", d.seq_region_name.getD "N/A"),
   ("Genomic Start", d.start.getD "N/A"),
   ("Genomic End", d.endField.getD "N/A"),
   ("Most Severe Consequence", d.most_severe_consequence.getD "N/A"),
   ("Protein Start", tc.protein_start.getD "N/A"),
   ("Protein End", tc.protein_end.getD "N/A"),
   ("Amino Acids", tc.amino_acids.getD "N/A")]

/-- The field projection of `get_genomic_coordinates`. -/
def projCoords (hgvs : List Char) (d : VepItem) (_tc : TranscriptConsequence) :
    List (String × String) :=
  [("Chromosome", d.seq_region_name.getD "N/A"),
   ("Start", d.start.getD "N/A"),
   ("VariantChange", (variantChange_coords hgvs).asString)]

/-- One gnomAD cohort record: allele count `ac` and total allele number
`an`. -/
structure Cohort where
  ac : Int
  an : Int
  deriving DecidableEq, Repr

/-- The `variant` object of the gnomAD GraphQL response; each cohort may
be null. -/
structure GnomadVariant where
  genome : Option Cohort
  exome : Option Cohort
  deriving DecidableEq, Repr

/-- The formatted variant string built in `get_gnomad_data`
(`API_Toolkit.py` lines 363 to 370): chromosome, start and variant change
joined with dashes, missing fields defaulting to `N/A`. -/
def formattedVariant (hgvs : List Char) (d : VepItem) : String :=
  (d.seq_region_name.getD "N/A") ++ "-" ++ (d.start.getD "N/A") ++ "-" ++
    (variantChange_gnomad hgvs).asString

/-- Embedding of `get_gnomad_data` (`API_Toolkit.py` lines 344 to 426).
The VEP request is issued outside any handler; a network exception
propagates, and a not-OK status (400 to 599) makes `raise_for_status`
raise `HTTPError` with the `sys.exit` behind it unreachable.
When the guard (non-empty decoded list whose first item has the
`transcript_consequences` key) fails, control falls off the end of the
function and Python returns `None` with the gnomAD request never issued.
When the guard holds, the first consequence is read (empty list raises
`IndexError`), the formatted variant is built, and the gnomAD POST is
issued: a 200 response with a null `variant` object raises `TypeError`
(subscripting `None`), a 200 response with data returns the triple, and
any other status returns `None`.  The second component counts the
requests attempted. -/
def get_gnomad_data (hgvs : List Char) (vep : HttpOutcome (List VepItem))
    (gn : HttpOutcome (Option GnomadVariant)) :
    Except PyError (Option (String × Option Cohort × Option Cohort)) × Nat :=
  match vep with
  | HttpOutcome.exn => (Except.error PyError.requestException, 1)
  | HttpOutcome.resp st decoded =>
    if 400 ≤ st ∧ st < 600 then (Except.error PyError.httpError, 1)
    else
      match decoded with
      | d :: _ =>
        match d.transcript_consequences with
        | some (_tc :: _) =>
          match gn with
          | HttpOutcome.exn => (Except.error PyError.requestException, 2)
          | HttpOutcome.resp st2 body =>
            if st2 = 200 then
              match body with
              | none => (Except.error PyError.typeError, 2)
              | some v =>
                (Except.ok (some (formattedVariant hgvs d, v.genome, v.exome)), 2)
            else (Except.ok none, 2)
        | some [] => (Except.error PyError.indexError, 1)
        | none => (Except.ok none, 1)
      | [] => (Except.ok none, 1)

/-- Round a rational to the nearest integer, ties to even — the IEEE-754
default rounding mode used by CPython float arithmetic. -/
def roundHalfEven (x : ℚ) : ℤ :=
  if x - (⌊x⌋ : ℚ) < 1 / 2 then ⌊x⌋
  else if 1 / 2 < x - (⌊x⌋ : ℚ) then ⌊x⌋ + 1
  else if Even ⌊x⌋ then ⌊x⌋ else ⌊x⌋ + 1

/-- The binary64 (double) value nearest to a positive rational: the
value is scaled by a power of two into the 53-bit significand range and
rounded there with ties to even. -/
def float64Pos (q : ℚ) : ℚ :=
  (roundHalfEven (q * (2 : ℚ) ^ (-(Int.log 2 q - 52))) : ℚ) *
    (2 : ℚ) ^ (Int.log 2 q - 52)

/-- The binary64 value nearest to a rational.  CPython true division of
two ints returns exactly this value whenever the quotient magnitude lies
in the binary64 normal range; gradual underflow below 2 ^ (-1022) and
overflow at 2 ^ 1024, unreachable for realistic allele counts, are
outside the model. -/
def float64Round (q : ℚ) : ℚ :=
  if 0 < q then float64Pos q
  else if q < 0 then - float64Pos (-q)
  else 0

/-- Embedding of the allele-frequency expression of `render_page4`
(`test_dashboard.py` lines 181 to 182):
`data[ac] / data[an] if data[an] != 0 else None`, applied once to the
genome record and once to the exome record.  The division is CPython
float true division of two ints — the correctly rounded binary64
quotient (`float64Round`); the guard makes the zero-total case `None`
without evaluating the division, so no `ZeroDivisionError` and no NaN
arises. -/
def allele_frequency (ac an : Int) : Option ℚ :=
  if an ≠ 0 then some (float64Round ((ac : ℚ) / (an : ℚ))) else none

/-- The two frequencies computed by `render_page4` for a gnomAD result:
the same expression applied to the genome cohort and to the exome
cohort. -/
def render_page4_frequencies (genome exome : Cohort) : Option ℚ × Option ℚ :=
  (allele_frequency genome.ac genome.an, allele_frequency exome.ac exome.an)

lemma revelParse_ok_of_length (input : List Char)
    (h : (splitOnChar '-' input).length = 4) :
    ∃ cpra, revelParse input = Except.ok cpra := by
  unfold revelParse
  rcases hs : splitOnChar '-' input with _ | ⟨a, _ | ⟨b, _ | ⟨c, _ | ⟨d, _ | ⟨e, t⟩⟩⟩⟩⟩ <;>
    simp_all [hs]

/-- C2: an input of the form C-P-R-A, with no dash inside a component,
parses to exactly the four components chromosome, position, reference,
alternate in that order; an input whose split on the dash does not have
exactly four fields makes `get_revel_score` raise `ValueError` with zero
requests attempted. -/
theorem revel_positional_parse
    (c p r a : List Char) (hc : '-' ∉ c) (hp : '-' ∉ p) (hr : '-' ∉ r) (ha : '-' ∉ a)
    (input : List Char) (hlen : (splitOnChar '-' input).length ≠ 4)
    (p1 : HttpOutcome Unit) (p2 : HttpOutcome (Option RevelTable)) :
    revelParse (c ++ '-' :: (p ++ '-' :: (r ++ '-' :: a))) = Except.ok (c, p, r, a)
  ∧ get_revel_score input p1 p2 = (Except.error PyError.valueError, 0) := by
  constructor
  · unfold revelParse
    rw [splitOnChar_append '-' c _ hc, splitOnChar_append '-' p _ hp,
        splitOnChar_append '-' r _ hr, splitOnChar_no_sep '-' a ha]
  · unfold get_revel_score
    rw [revelParse_error_of_length input hlen]

/-- Witness for `revel_positional_parse` at the documented example
`7-124842898-G-T` and the malformed input `7-124842898`. -/
theorem revel_positional_parse_witness :
    revelParse ("7".toList ++ '-' :: ("124842898".toList ++ '-' ::
        ("G".toList ++ '-' :: "T".toList)))
      = Except.ok ("7".toList, "124842898".toList, "G".toList, "T".toList)
  ∧ get_revel_score ("7-124842898".toList) HttpOutcome.exn HttpOutcome.exn
      = (Except.error PyError.valueError, 0) :=
  revel_positional_parse "7".toList "124842898".toList "G".toList "T".toList
    (by decide) (by decide) (by decide) (by decide)
    ("7-124842898".toList) (by decide) HttpOutcome.exn HttpOutcome.exn

/-- C3: the variant-change extractor keeps the substring after the last
colon, drops every digit and every occurrence of the characters full stop
and lowercase c, and turns the greater-than sign into a dash; on the HGVS
example it yields C-T, and the copies of the transformation in
`get_genomic_coordinates` and `get_gnomad_data` agree on every input. -/
theorem variant_change_extraction (l : List Char) :
    variantChange_coords ("NM_000516.7:c.601C>T".toList) = "C-T".toList
  ∧ variantChange_coords l = variantChange_gnomad l :=
  ⟨by decide, rfl⟩

lemma roundHalfEven_dist (x : ℚ) : |(roundHalfEven x : ℚ) - x| ≤ 1 / 2 := by
  have hf : (⌊x⌋ : ℚ) ≤ x := Int.floor_le x
  have hf1 : x < (⌊x⌋ : ℚ) + 1 := Int.lt_floor_add_one x
  unfold roundHalfEven
  split_ifs with h1 h2 h3 <;>
  · rw [abs_le]
    constructor <;> push_cast <;> linarith

lemma float64Pos_err (q : ℚ) (hq : 0 < q) :
    |float64Pos q - q| ≤ q / 2 ^ 53 := by
  have h2 : (2 : ℚ) ≠ 0 := by norm_num
  have hqy : (q * (2 : ℚ) ^ (-(Int.log 2 q - 52))) * (2 : ℚ) ^ (Int.log 2 q - 52) = q := by
    rw [mul_assoc, ← zpow_add₀ h2]
    simp
  have key : float64Pos q - q
      = ((roundHalfEven (q * (2 : ℚ) ^ (-(Int.log 2 q - 52))) : ℚ)
          - q * (2 : ℚ) ^ (-(Int.log 2 q - 52))) * (2 : ℚ) ^ (Int.log 2 q - 52) := by
    rw [float64Pos, sub_mul, hqy]
  have hpos : (0 : ℚ) < (2 : ℚ) ^ (Int.log 2 q - 52) := by positivity
  have hdist := roundHalfEven_dist (q * (2 : ℚ) ^ (-(Int.log 2 q - 52)))
  have hlog : (2 : ℚ) ^ (Int.log 2 q) ≤ q := by
    have h := Int.zpow_log_le_self (b := 2) (R := ℚ) one_lt_two hq
    push_cast at h
    exact h
  rw [key, abs_mul, abs_of_pos hpos]
  refine le_trans (mul_le_mul_of_nonneg_right hdist hpos.le) ?_
  have hsplit : (1 / 2 : ℚ) * (2 : ℚ) ^ (Int.log 2 q - 52)
      = (2 : ℚ) ^ (Int.log 2 q) / 2 ^ 53 := by
    rw [zpow_sub₀ h2]
    norm_num [zpow_natCast]
    ring
  rw [hsplit]
  gcongr

lemma float64Round_err (q : ℚ) : |float64Round q - q| ≤ |q| / 2 ^ 53 := by
  rcases lt_trichotomy 0 q with h | h | h
  · rw [float64Round, if_pos h, abs_of_pos h]
    exact float64Pos_err q h
  · rw [← h]
    norm_num [float64Round]
  · have hnp : ¬ 0 < q := not_lt.mpr h.le
    rw [float64Round, if_neg hnp, if_pos h]
    have hb := float64Pos_err (-q) (by linarith)
    have heq : -float64Pos (-q) - q = -(float64Pos (-q) - (-q)) := by ring
    rw [heq, abs_neg, abs_of_neg h]
    exact hb

lemma float64Round_dyadic (q : ℚ) :
    ∃ n : ℤ, ∃ k : ℤ, float64Round q = (n : ℚ) * 2 ^ k := by
  rcases lt_trichotomy 0 q with h | h | h
  · exact ⟨roundHalfEven (q * (2 : ℚ) ^ (-(Int.log 2 q - 52))), Int.log 2 q - 52,
      by rw [float64Round, if_pos h, float64Pos]⟩
  · refine ⟨0, 0, ?_⟩
    rw [← h]
    norm_num [float64Round]
  · refine ⟨-(roundHalfEven ((-q) * (2 : ℚ) ^ (-(Int.log 2 (-q) - 52)))),
      Int.log 2 (-q) - 52, ?_⟩
    rw [float64Round, if_neg (not_lt.mpr h.le), if_pos h, float64Pos]
    push_cast
    ring

lemma not_dyadic_inv49 (n k : ℤ) : (n : ℚ) * 2 ^ k ≠ 1 / 49 := by
  intro h
  rcases le_or_lt 0 k with hk | hk
  · obtain ⟨m, hm⟩ := Int.eq_ofNat_of_zero_le hk
    rw [hm, zpow_natCast] at h
    have h' : (n : ℚ) * 2 ^ m * 49 = 1 := by
      field_simp at h
      linarith [h]
    have hz : n * 2 ^ m * 49 = 1 := by exact_mod_cast h'
    have hdvd : (49 : ℤ) ∣ 1 := ⟨n * 2 ^ m, by linarith [hz]⟩
    norm_num at hdvd
  · have hk' : (0 : ℤ) ≤ -k := by omega
    obtain ⟨m, hm⟩ := Int.eq_ofNat_of_zero_le hk'
    have hk2 : k = -(m : ℤ) := by omega
    rw [hk2, zpow_neg, zpow_natCast] at h
    have h' : (n : ℚ) * 49 = 2 ^ m := by
      field_simp at h
      linarith [h]
    have hz : n * 49 = 2 ^ m := by exact_mod_cast h'
    have h7 : (7 : ℤ) ∣ 2 ^ m := ⟨n * 7, by linarith [hz]⟩
    have hp : Prime (7 : ℤ) := by norm_num
    have h72 := hp.dvd_of_dvd_pow h7
    norm_num at h72

/-- C4 counterexample: at allele count 1 and total allele number 49 the
computed frequency is the binary64 rounding of 1/49; every binary64
value is a dyadic rational, and 1/49 is not, so the computed value is
not the exact quotient — refuting the claim that a nonzero total makes
the computed frequency equal ac/an exactly. -/
theorem allele_frequency_inexact :
    allele_frequency 1 49 ≠ some ((1 : ℚ) / 49) := by
  intro heq
  have hv : allele_frequency 1 49
      = some (float64Round (((1 : Int) : ℚ) / ((49 : Int) : ℚ))) := by
    simp [allele_frequency]
  rw [hv] at heq
  have hcast : (((1 : Int) : ℚ) / ((49 : Int) : ℚ)) = 1 / 49 := by norm_num
  rw [hcast] at heq
  obtain ⟨n, k, hnk⟩ := float64Round_dyadic ((1 : ℚ) / 49)
  have heq2 : float64Round ((1 : ℚ) / 49) = 1 / 49 := Option.some.inj heq
  rw [heq2] at hnk
  exact not_dyadic_inv49 n k hnk.symm

/-- C4 amended: applied to the genome record and to the exome record,
the allele-frequency expression yields `None` when the total allele
number is zero (no `ZeroDivisionError`, no NaN), and for a nonzero total
it yields a value — the binary64 rounding of ac/an — that is a dyadic
rational within relative error 2 ^ (-53) of the exact quotient, but not
the exact quotient in general. -/
theorem allele_frequency_float (g e : Cohort) :
    (g.an = 0 → (render_page4_frequencies g e).1 = none)
  ∧ (g.an ≠ 0 → ∃ qv : ℚ, (render_page4_frequencies g e).1 = some qv
      ∧ (∃ n : ℤ, ∃ k : ℤ, qv = (n : ℚ) * 2 ^ k)
      ∧ |qv - (g.ac : ℚ) / (g.an : ℚ)| ≤ |(g.ac : ℚ) / (g.an : ℚ)| / 2 ^ 53)
  ∧ (e.an = 0 → (render_page4_frequencies g e).2 = none)
  ∧ (e.an ≠ 0 → ∃ qv : ℚ, (render_page4_frequencies g e).2 = some qv
      ∧ (∃ n : ℤ, ∃ k : ℤ, qv = (n : ℚ) * 2 ^ k)
      ∧ |qv - (e.ac : ℚ) / (e.an : ℚ)| ≤ |(e.ac : ℚ) / (e.an : ℚ)| / 2 ^ 53) := by
  refine ⟨fun h => ?_, fun h => ?_, fun h => ?_, fun h => ?_⟩
  · simp [render_page4_frequencies, allele_frequency, h]
  · exact ⟨float64Round ((g.ac : ℚ) / (g.an : ℚ)),
      by simp [render_page4_frequencies, allele_frequency, h],
      float64Round_dyadic _, float64Round_err _⟩
  · simp [render_page4_frequencies, allele_frequency, h]
  · exact ⟨float64Round ((e.ac : ℚ) / (e.an : ℚ)),
      by simp [render_page4_frequencies, allele_frequency, h],
      float64Round_dyadic _, float64Round_err _⟩

/-- Witness for `allele_frequency_float` at a genome record with zero
total and an exome record with count 1 and total 49. -/
theorem allele_frequency_float_witness :
    (render_page4_frequencies ⟨1, 0⟩ ⟨1, 49⟩).1 = none
  ∧ ∃ qv : ℚ, (render_page4_frequencies ⟨1, 0⟩ ⟨1, 49⟩).2 = some qv
      ∧ (∃ n : ℤ, ∃ k : ℤ, qv = (n : ℚ) * 2 ^ k)
      ∧ |qv - ((1 : Int) : ℚ) / ((49 : Int) : ℚ)|
          ≤ |((1 : Int) : ℚ) / ((49 : Int) : ℚ)| / 2 ^ 53 :=
  ⟨(allele_frequency_float ⟨1, 0⟩ ⟨1, 49⟩).1 rfl,
   (allele_frequency_float ⟨1, 0⟩ ⟨1, 49⟩).2.2.2 (by decide)⟩

/-- C5: the literature-search adapter returns the one-element sentinel
list on a 200 response with zero matching anchors; the sentinel is
neither the empty sequence nor the failure value; any non-200 status and
any request exception return `None`. -/
theorem pubmed_sentinel (st : Nat) (hst : st ≠ 200) (anchors : List Anchor) :
    search_pubmed (HttpOutcome.resp 200 []) = some ["No search results found."]
  ∧ (some ["No search results found."] : Option (List String)) ≠ none
  ∧ (["No search results found."] : List String) ≠ []
  ∧ search_pubmed (HttpOutcome.resp st anchors) = none
  ∧ search_pubmed HttpOutcome.exn = none := by
  refine ⟨rfl, by simp, by simp, ?_, rfl⟩
  simp [search_pubmed, hst]

/-- Witness for `pubmed_sentinel` at status 404. -/
theorem pubmed_sentinel_witness :
    search_pubmed (HttpOutcome.resp 200 []) = some ["No search results found."]
  ∧ (some ["No search results found."] : Option (List String)) ≠ none
  ∧ (["No search results found."] : List String) ≠ []
  ∧ search_pubmed (HttpOutcome.resp 404 []) = none
  ∧ search_pubmed HttpOutcome.exn = none :=
  pubmed_sentinel 404 (by decide) []

/-- C1 counterexample: a network exception during the ClinVar search
request propagates out of `get_clinvar_classification`, because neither
of its requests sits inside an exception handler (`API_Toolkit.py` lines
89 and 103) — contradicting the claim that no adapter ever lets a
language-level exception propagate on a transport failure. -/
theorem clinvar_exception_propagates :
    get_clinvar_classification HttpOutcome.exn
        (HttpOutcome.resp 200 { description := none, review_status := none })
      = (Except.error PyError.requestException, 1) := rfl

/-- C1 amended: the adapters that wrap their requests in exception
handlers — splice-impact, literature-search and external-tool URL —
return `None` on a network exception and on a non-200 status; the
pathogenicity-score adapter returns `None` on a non-200 status of its
query request.  The remaining adapters issue requests outside any
handler, so transport exceptions propagate there. -/
theorem guarded_adapters_fail_closed {α : Type} (a : α) (st : Nat) (hst : st ≠ 200)
    (anchors : List Anchor) (variant assembly mode : String)
    (input : List Char) (hin : (splitOnChar '-' input).length = 4)
    (p1st : Nat) (tbl : Option RevelTable) :
    get_splice_ai_data (HttpOutcome.exn : HttpOutcome α) = none
  ∧ get_splice_ai_data (HttpOutcome.resp st a) = none
  ∧ search_pubmed HttpOutcome.exn = none
  ∧ search_pubmed (HttpOutcome.resp st anchors) = none
  ∧ get_varsome_data_url variant assembly mode HttpOutcome.exn = none
  ∧ get_varsome_data_url variant assembly mode (HttpOutcome.resp st ()) = none
  ∧ get_revel_score input (HttpOutcome.resp p1st ()) (HttpOutcome.resp st tbl)
      = (Except.ok none, 2) := by
  obtain ⟨cpra, hok⟩ := revelParse_ok_of_length input hin
  refine ⟨rfl, ?_, rfl, ?_, rfl, ?_, ?_⟩
  · simp [get_splice_ai_data, hst]
  · simp [search_pubmed, hst]
  · simp [get_varsome_data_url, hst]
  · simp [get_revel_score, hok, hst]

/-- Witness for `guarded_adapters_fail_closed` at status 404 and the
example positional identifier. -/
theorem guarded_adapters_fail_closed_witness :
    get_splice_ai_data (HttpOutcome.exn : HttpOutcome Unit) = none
  ∧ get_splice_ai_data (HttpOutcome.resp 404 ()) = none
  ∧ search_pubmed HttpOutcome.exn = none
  ∧ search_pubmed (HttpOutcome.resp 404 []) = none
  ∧ get_varsome_data_url "v" "hg38" "somatic" HttpOutcome.exn = none
  ∧ get_varsome_data_url "v" "hg38" "somatic" (HttpOutcome.resp 404 ()) = none
  ∧ get_revel_score ("7-124842898-G-T".toList) (HttpOutcome.resp 200 ())
        (HttpOutcome.resp 404 none)
      = (Except.ok none, 2) :=
  guarded_adapters_fail_closed () 404 (by decide) [] "v" "hg38" "somatic"
    ("7-124842898-G-T".toList) (by decide) 200 none

/-- C6: on a 200 pathogenicity-score response whose table has one header
row and exactly one data row, `get_revel_score` returns the single
mapping pairing header texts with the data-row cell texts positionally
(so its keys are the header texts and its values the data cells), with
the header row excluded; with only the header row present it returns
`None`.  The no-duplicate-headers hypothesis records when the positional
association list coincides with the Python dict built by
`dict(zip(headers, data))`. -/
theorem revel_table_parse
    (input : List Char) (hin : (splitOnChar '-' input).length = 4)
    (p1st : Nat) (headers : List String) (hrow drow : List String)
    (hnd : headers.Nodup) (hlen : drow.length = headers.length) :
    get_revel_score input (HttpOutcome.resp p1st ())
        (HttpOutcome.resp 200 (some { headers := headers, rows := [hrow, drow] }))
      = (Except.ok (some (headers.zip drow)), 2)
  ∧ (headers.zip drow).map Prod.fst = headers
  ∧ (headers.zip drow).map Prod.snd = drow
  ∧ get_revel_score input (HttpOutcome.resp p1st ())
        (HttpOutcome.resp 200 (some { headers := headers, rows := [hrow] }))
      = (Except.ok none, 2) := by
  obtain ⟨cpra, hok⟩ := revelParse_ok_of_length input hin
  refine ⟨?_, ?_, ?_, ?_⟩
  · simp [get_revel_score, hok]
  · exact List.map_fst_zip headers drow (le_of_eq hlen.symm)
  · exact List.map_snd_zip headers drow (le_of_eq hlen)
  · simp [get_revel_score, hok]

/-- Witness for `revel_table_parse` on a concrete two-row table. -/
theorem revel_table_parse_witness :
    get_revel_score ("7-124842898-G-T".toList) (HttpOutcome.resp 200 ())
        (HttpOutcome.resp 200 (some { headers := ["chr", "REVEL_score"],
                                      rows := [["chr", "REVEL_score"], ["7", "0.9"]] }))
      = (Except.ok (some ([("chr", "7"), ("REVEL_score", "0.9")])), 2)
  ∧ ([("chr", "7"), ("REVEL_score", "0.9")] : List (String × String)).map Prod.fst
      = ["chr", "REVEL_score"]
  ∧ ([("chr", "7"), ("REVEL_score", "0.9")] : List (String × String)).map Prod.snd
      = ["7", "0.9"]
  ∧ get_revel_score ("7-124842898-G-T".toList) (HttpOutcome.resp 200 ())
        (HttpOutcome.resp 200 (some { headers := ["chr", "REVEL_score"],
                                      rows := [["chr", "REVEL_score"]] }))
      = (Except.ok none, 2) :=
  revel_table_parse ("7-124842898-G-T".toList) (by decide) 200
    ["chr", "REVEL_score"] ["chr", "REVEL_score"] ["7", "0.9"]
    (by decide) (by decide)

/-- C7: the clinical-classification adapter fails distinctly per stage: a
search response without an `Id` element returns `None` after a single
request; a summary response without a `description` element returns
`None`; and a classification triple is returned only when the search
yielded an identifier and the summary carried both a description and a
review status. -/
theorem clinvar_stagewise
    (stA stB : Nat) (t : HttpOutcome SummaryXml) (vid : String)
    (sx : SummaryXml) (hdesc : sx.description = none)
    (s : HttpOutcome (Option String)) (u : HttpOutcome SummaryXml)
    (res : String × String × String) (n : Nat) :
    get_clinvar_classification (HttpOutcome.resp stA none) t = (Except.ok none, 1)
  ∧ get_clinvar_classification (HttpOutcome.resp stA (some vid)) (HttpOutcome.resp stB sx)
      = (Except.ok none, 2)
  ∧ (get_clinvar_classification s u = (Except.ok (some res), n) →
      (∃ st1 id1, s = HttpOutcome.resp st1 (some id1))
    ∧ (∃ st2 sx2, u = HttpOutcome.resp st2 sx2
        ∧ sx2.description.isSome ∧ sx2.review_status.isSome)) := by
  refine ⟨rfl, ?_, ?_⟩
  · simp [get_clinvar_classification, hdesc]
  · intro h
    cases s with
    | exn => simp [get_clinvar_classification] at h
    | resp st1 idElem =>
      cases idElem with
      | none => simp [get_clinvar_classification] at h
      | some id1 =>
        cases u with
        | exn => simp [get_clinvar_classification] at h
        | resp st2 sx2 =>
          refine ⟨⟨st1, id1, rfl⟩, st2, sx2, rfl, ?_, ?_⟩
          · rcases hd : sx2.description with _ | d
            · simp [get_clinvar_classification, hd] at h
            · simp
          · rcases hd : sx2.description with _ | d
            · simp [get_clinvar_classification, hd] at h
            · rcases hr : sx2.review_status with _ | rv
              · simp [get_clinvar_classification, hd, hr] at h
              · simp

/-- Witness for `clinvar_stagewise` on concrete stage outcomes. -/
theorem clinvar_stagewise_witness :
    get_clinvar_classification (HttpOutcome.resp 200 none) HttpOutcome.exn
      = (Except.ok none, 1)
  ∧ get_clinvar_classification (HttpOutcome.resp 200 (some "12345"))
        (HttpOutcome.resp 200 { description := none, review_status := none })
      = (Except.ok none, 2)
  ∧ (get_clinvar_classification (HttpOutcome.resp 200 (some "12345"))
        (HttpOutcome.resp 200 { description := some "Pathogenic",
                                review_status := some "criteria provided" })
      = (Except.ok (some ("Pathogenic", "criteria provided", clinvarLink "12345")), 2) →
      (∃ st1 id1, (HttpOutcome.resp 200 (some "12345") : HttpOutcome (Option String))
          = HttpOutcome.resp st1 (some id1))
    ∧ (∃ st2 sx2, (HttpOutcome.resp 200 { description := some "Pathogenic",
                                          review_status := some "criteria provided" }
          : HttpOutcome SummaryXml) = HttpOutcome.resp st2 sx2
        ∧ sx2.description.isSome ∧ sx2.review_status.isSome)) :=
  clinvar_stagewise 200 200 HttpOutcome.exn "12345"
    { description := none, review_status := none } rfl
    (HttpOutcome.resp 200 (some "12345"))
    (HttpOutcome.resp 200 { description := some "Pathogenic",
                            review_status := some "criteria provided" })
    ("Pathogenic", "criteria provided", clinvarLink "12345") 2

/-- C8: the three VEP-based adapters build the same endpoint from the
HGVS string and each equals the shared template — identical success
check, identical first-item and key guard, identical `None` on a failed
guard — instantiated with its own field projection. -/
theorem vep_adapters_shared (hgvs : List Char) (t : HttpOutcome (List VepItem)) :
    vepUrl_functional hgvs = vepUrl_rest hgvs
  ∧ vepUrl_rest hgvs = vepUrl_coords hgvs
  ∧ get_ensembl_functional_data t = vepTemplate projFunctional t
  ∧ get_ensembl_rest_data t = vepTemplate projRest t
  ∧ get_genomic_coordinates hgvs t = vepTemplate (projCoords hgvs) t := by
  refine ⟨rfl, rfl, ?_, ?_, ?_⟩ <;>
  · cases t with
    | exn => rfl
    | resp st decoded =>
      rcases decoded with _ | ⟨d, rest⟩
      · rfl
      · rcases htc : d.transcript_consequences with _ | ⟨_ | ⟨tc, tcs⟩⟩ <;>
          simp [get_ensembl_functional_data, get_ensembl_rest_data,
                get_genomic_coordinates, vepTemplate, htc,
                projFunctional, projRest, projCoords]

/-- C9 counterexample: a failure of the population-frequency adapter
`get_gnomad_data` — a non-OK status on its coordinate-resolution request
— is not returned as a value either: it raises `HTTPError` through the
same `raise_for_status` pattern, so the standalone coordinate lookup is
not the single non-recoverable failure path in the core logic. -/
theorem gnomad_nonok_raises :
    (get_gnomad_data ("x".toList) (HttpOutcome.resp 500 [])
        (HttpOutcome.resp 200 none)).1
      = Except.error PyError.httpError := rfl

/-- C9 amended: on a not-OK response — status 400 to 599, exactly the
range where the requests library sets `ok` to `False` —
`raise_for_status` always raises `HTTPError`, so the `sys.exit` call
behind it is unreachable dead code and the failure escapes as an
uncaught exception (which ends a standalone run) rather than a returned
value; a status of 600 or more counts as OK and the body is parsed.
The identical handling is shared by `get_ensembl_functional_data`,
`get_ensembl_rest_data` and `get_gnomad_data`, so the standalone
coordinate lookup is not the single non-recoverable failure path. -/
theorem nonok_raising_shared (hgvs : List Char) (st : Nat)
    (hst : 400 ≤ st ∧ st < 600) (st2 : Nat) (hst2 : 600 ≤ st2)
    (decoded : List VepItem) (gn : HttpOutcome (Option GnomadVariant)) :
    get_genomic_coordinates hgvs (HttpOutcome.resp st decoded)
      = Except.error PyError.httpError
  ∧ get_ensembl_functional_data (HttpOutcome.resp st decoded)
      = Except.error PyError.httpError
  ∧ get_ensembl_rest_data (HttpOutcome.resp st decoded)
      = Except.error PyError.httpError
  ∧ (get_gnomad_data hgvs (HttpOutcome.resp st decoded) gn).1
      = Except.error PyError.httpError
  ∧ get_genomic_coordinates hgvs (HttpOutcome.resp st2 [])
      = Except.ok none := by
  have h2 : ¬ (400 ≤ st2 ∧ st2 < 600) := by omega
  refine ⟨?_, ?_, ?_, ?_, ?_⟩ <;>
    simp [get_genomic_coordinates, get_ensembl_functional_data,
          get_ensembl_rest_data, get_gnomad_data, hst, h2]

/-- Witness for `nonok_raising_shared` at the not-OK status 500 and the
beyond-range status 600. -/
theorem nonok_raising_shared_witness :
    get_genomic_coordinates ("x".toList) (HttpOutcome.resp 500 [])
      = Except.error PyError.httpError
  ∧ get_ensembl_functional_data (HttpOutcome.resp 500 [])
      = Except.error PyError.httpError
  ∧ get_ensembl_rest_data (HttpOutcome.resp 500 [])
      = Except.error PyError.httpError
  ∧ (get_gnomad_data ("x".toList) (HttpOutcome.resp 500 []) HttpOutcome.exn).1
      = Except.error PyError.httpError
  ∧ get_genomic_coordinates ("x".toList) (HttpOutcome.resp 600 [])
      = Except.ok none :=
  nonok_raising_shared ("x".toList) 500 (by decide) 600 (by decide) []
    HttpOutcome.exn

/-- C10: `get_gnomad_data` returns `None` after the single
coordinate-resolution request when the decoded list is empty or its first
item lacks the transcript-consequences key (the gnomAD query is never
issued — the request count stays at one), and also returns `None` after
both requests when the gnomAD query has a non-200 status; the `None`
value is the same in all three cases. -/
theorem gnomad_none_paths
    (hgvs : List Char) (stOk : Nat) (hok : stOk < 400)
    (gn : HttpOutcome (Option GnomadVariant))
    (d : VepItem) (hd : d.transcript_consequences = none) (rest : List VepItem)
    (d2 : VepItem) (tc : TranscriptConsequence) (tcs : List TranscriptConsequence)
    (hd2 : d2.transcript_consequences = some (tc :: tcs)) (rest2 : List VepItem)
    (st2 : Nat) (hst2 : st2 ≠ 200) (gbody : Option GnomadVariant) :
    get_gnomad_data hgvs (HttpOutcome.resp stOk []) gn = (Except.ok none, 1)
  ∧ get_gnomad_data hgvs (HttpOutcome.resp stOk (d :: rest)) gn = (Except.ok none, 1)
  ∧ get_gnomad_data hgvs (HttpOutcome.resp stOk (d2 :: rest2))
        (HttpOutcome.resp st2 gbody)
      = (Except.ok none, 2) := by
  have hnotok : ¬ (400 ≤ stOk ∧ stOk < 600) := by omega
  refine ⟨?_, ?_, ?_⟩ <;>
    simp [get_gnomad_data, hnotok, hd, hd2, hst2]

/-- Witness for `gnomad_none_paths` on concrete responses: an empty
decoded list, a first item without the transcript-consequences key, and a
gnomAD query answered with status 500. -/
theorem gnomad_none_paths_witness :
    get_gnomad_data ("x".toList) (HttpOutcome.resp 200 []) HttpOutcome.exn
      = (Except.ok none, 1)
  ∧ get_gnomad_data ("x".toList)
        (HttpOutcome.resp 200 [VepItem.mk none none none none none none])
        HttpOutcome.exn
      = (Except.ok none, 1)
  ∧ get_gnomad_data ("x".toList)
        (HttpOutcome.resp 200
          [VepItem.mk (some [TranscriptConsequence.mk none none none none none none])
            none none none none none])
        (HttpOutcome.resp 500 none)
      = (Except.ok none, 2) :=
  gnomad_none_paths ("x".toList) 200 (by decide) HttpOutcome.exn
    (VepItem.mk none none none none none none) rfl []
    (VepItem.mk (some [TranscriptConsequence.mk none none none none none none])
      none none none none none)
    (TranscriptConsequence.mk none none none none none none) [] rfl []
    500 (by decide) none
